import Mathlib

/-!
# Verification of the firestore-read tool-dispatch contract

Shallow embedding of `src/firestore_read/server.py`: the tool catalog
(`handle_list_tools`), the dispatcher (`handle_call_tool`), the resource
reader (`handle_read_resource`) and startup (`main`), together with a
semantic model of the remote document store (an external collaborator,
modelled from the specification of its query primitives).

Python exceptions are embedded as the `Except PyError` monad: a handler
that `raise`s is a handler returning `.error`; a handler that returns a
value returns `.ok`.
-/

namespace FirestoreRead

/-- Document field values (the JSON-like value universe the store holds).
Modelled from the spec: field values are strings, numbers, booleans, null
or nested sequences; nested mappings, timestamps and references are not
exercised by any dispatch rule verified here. -/
inductive Value where
  | vnull : Value
  | vbool : Bool → Value
  | vint : Int → Value
  | vstr : String → Value
  | varr : List Value → Value

mutual
/-- Decidable equality of values (hand-rolled: the nested sequence
constructor defeats the automatic derivation). -/
def Value.decEq : (a b : Value) → Decidable (a = b)
  | .vnull, .vnull => .isTrue rfl
  | .vnull, .vbool _ => .isFalse (fun h => Value.noConfusion h)
  | .vnull, .vint _ => .isFalse (fun h => Value.noConfusion h)
  | .vnull, .vstr _ => .isFalse (fun h => Value.noConfusion h)
  | .vnull, .varr _ => .isFalse (fun h => Value.noConfusion h)
  | .vbool _, .vnull => .isFalse (fun h => Value.noConfusion h)
  | .vbool x, .vbool y =>
    if h : x = y then .isTrue (by rw [h])
    else .isFalse (fun hh => h (by injection hh))
  | .vbool _, .vint _ => .isFalse (fun h => Value.noConfusion h)
  | .vbool _, .vstr _ => .isFalse (fun h => Value.noConfusion h)
  | .vbool _, .varr _ => .isFalse (fun h => Value.noConfusion h)
  | .vint _, .vnull => .isFalse (fun h => Value.noConfusion h)
  | .vint _, .vbool _ => .isFalse (fun h => Value.noConfusion h)
  | .vint x, .vint y =>
    if h : x = y then .isTrue (by rw [h])
    else .isFalse (fun hh => h (by injection hh))
  | .vint _, .vstr _ => .isFalse (fun h => Value.noConfusion h)
  | .vint _, .varr _ => .isFalse (fun h => Value.noConfusion h)
  | .vstr _, .vnull => .isFalse (fun h => Value.noConfusion h)
  | .vstr _, .vbool _ => .isFalse (fun h => Value.noConfusion h)
  | .vstr _, .vint _ => .isFalse (fun h => Value.noConfusion h)
  | .vstr x, .vstr y =>
    if h : x = y then .isTrue (by rw [h])
    else .isFalse (fun hh => h (by injection hh))
  | .vstr _, .varr _ => .isFalse (fun h => Value.noConfusion h)
  | .varr _, .vnull => .isFalse (fun h => Value.noConfusion h)
  | .varr _, .vbool _ => .isFalse (fun h => Value.noConfusion h)
  | .varr _, .vint _ => .isFalse (fun h => Value.noConfusion h)
  | .varr _, .vstr _ => .isFalse (fun h => Value.noConfusion h)
  | .varr xs, .varr ys =>
    match Value.decEqList xs ys with
    | .isTrue h => .isTrue (by rw [h])
    | .isFalse h => .isFalse (fun hh => h (by injection hh))

/-- Decidable equality of value sequences. -/
def Value.decEqList : (a b : List Value) → Decidable (a = b)
  | [], [] => .isTrue rfl
  | [], _ :: _ => .isFalse (fun h => List.noConfusion h)
  | _ :: _, [] => .isFalse (fun h => List.noConfusion h)
  | x :: xs, y :: ys =>
    match Value.decEq x y, Value.decEqList xs ys with
    | .isTrue h1, .isTrue h2 => .isTrue (by rw [h1, h2])
    | .isFalse h1, _ => .isFalse (fun hh => h1 (by injection hh))
    | .isTrue _, .isFalse h2 => .isFalse (fun hh => h2 (by injection hh))
end

instance : DecidableEq Value := Value.decEq

/-- Rank of a value's type, used to order values of different types
(Modelled from the spec: the store imposes some fixed total order across
value types; the particular cross-type order is unobservable to the
dispatch contract). -/
def Value.rank : Value → Nat
  | .vnull => 0
  | .vbool _ => 1
  | .vint _ => 2
  | .vstr _ => 3
  | .varr _ => 4

/-- Total `≤` on values: same-type values compare by their natural order,
different-type values by type rank; sequences are not meaningfully
ordered (they compare as equal among themselves). Modelled from the spec:
the store's ordering semantics for `OrderSpec`. -/
def valueLe (a b : Value) : Bool :=
  match a, b with
  | .vbool x, .vbool y => !x || y
  | .vint x, .vint y => decide (x ≤ y)
  | .vstr x, .vstr y => decide (x ≤ y)
  | a, b => decide (a.rank ≤ b.rank)

/-- Strict order derived from `valueLe`. -/
def valueLt (a b : Value) : Bool :=
  !(valueLe b a)

/-- A document: its id and its field mapping. -/
abbrev Doc := String × List (String × Value)

/-- Field access used by filters and ordering: a string field name is
looked up in the document data (missing fields read as null); a
non-string field designator never matches anything meaningful. -/
def getField (data : List (String × Value)) (f : Value) : Value :=
  match f with
  | .vstr s => (data.lookup s).getD .vnull
  | _ => .vnull

/-- Evaluation of one store filter operator. Modelled from the spec:
`FilterClause` operators `==`, `!=`, `<`, `<=`, `>`, `>=`,
`array-contains`, `in`. -/
def evalOp (opName : String) (fv v : Value) : Bool :=
  if opName == "==" then fv == v
  else if opName == "!=" then !(fv == v)
  else if opName == "<" then valueLt fv v
  else if opName == "<=" then valueLe fv v
  else if opName == ">" then valueLt v fv
  else if opName == ">=" then valueLe v fv
  else if opName == "array-contains" then
    match fv with
    | .varr xs => xs.contains v
    | _ => false
  else if opName == "in" then
    match v with
    | .varr xs => xs.contains fv
    | _ => false
  else false

/-- One filter clause as accumulated by `query.where(field, op, value)`:
the raw (field, operator, value) triple from the call. -/
def evalClause (data : List (String × Value)) : Value × Value × Value → Bool
  | (f, o, v) =>
    match o with
    | .vstr opName => evalOp opName (getField data f) v
    | _ => false

/-- A document matches a query iff it satisfies every filter clause
(clauses are combined by logical AND). -/
def matchesAll (filters : List (Value × Value × Value))
    (data : List (String × Value)) : Bool :=
  filters.all (fun c => evalClause data c)

/-- The ordering directive built by `query.order_by(field, direction)`. -/
structure OrderSpec where
  field : Value
  descending : Bool
  deriving DecidableEq

/-- The store-native query built up by `handle_call_tool`: collection
name, accumulated filter clauses, optional ordering, optional limit. -/
structure QuerySpec where
  collection : String
  filters : List (Value × Value × Value)
  orderSpec : Option OrderSpec
  limitN : Option Int
  deriving DecidableEq

/-- `db.collection(name)` with no constraints yet. -/
def emptyQuery (c : String) : QuerySpec :=
  { collection := c, filters := [], orderSpec := none, limitN := none }

/-- Comparison of two documents under an order field and direction. -/
def docLeB (f : Value) (desc : Bool) (d1 d2 : Doc) : Bool :=
  if desc then valueLe (getField d2.2 f) (getField d1.2 f)
  else valueLe (getField d1.2 f) (getField d2.2 f)

/-- The propositional form of `docLeB`, used for sorting. -/
def docLe (f : Value) (desc : Bool) (d1 d2 : Doc) : Prop :=
  docLeB f desc d1 d2 = true

instance (f : Value) (desc : Bool) : DecidableRel (docLe f desc) :=
  fun d1 d2 => inferInstanceAs (Decidable (docLeB f desc d1 d2 = true))

/-- The remote document store. Modelled from the spec: an external
collaborator holding named collections of documents; a primitive call may
also fail during execution (`streamFailure` gives the failure message the
store raises when streaming a given collection, if any). -/
structure Store where
  docsOf : String → List Doc
  streamFailure : String → Option String

/-- Python exceptions raised by the handlers or the store SDK. -/
inductive PyError where
  | valueError : String → PyError
  | keyError : String → PyError
  | attributeError : String → PyError
  | storeError : String → PyError
  deriving DecidableEq

/-- `str(e)` for an exception: the text the framework serializes. -/
def PyError.message : PyError → String
  | .valueError m => m
  | .keyError k => "\x27" ++ k ++ "\x27"
  | .attributeError m => m
  | .storeError m => m

/-- Executing a built query against the store: filter by all clauses
(AND), then order, then limit. Modelled from the spec: `runQuery`
constructs the store query by folding the clauses into successive
`.where` constraints, applying the `OrderSpec` if present, then the
limit if present, then executing. -/
def runQuery (store : Store) (q : QuerySpec) : List Doc :=
  let filtered := (store.docsOf q.collection).filter (fun d => matchesAll q.filters d.2)
  let ordered :=
    match q.orderSpec with
    | none => filtered
    | some o => List.insertionSort (docLe o.field o.descending) filtered
  match q.limitN with
  | some n => ordered.take n.toNat
  | none => ordered

/-- `query.stream()`: either the store raises during execution, or the
documents of the executed query are produced. -/
def streamQuery (store : Store) (q : QuerySpec) : Except PyError (List Doc) :=
  match store.streamFailure q.collection with
  | some m => .error (.storeError m)
  | none => .ok (runQuery store q)

mutual
/-- JSON rendering of a value (`json.dumps` on document data). -/
def renderValue : Value → String
  | .vnull => "null"
  | .vbool b => if b then "true" else "false"
  | .vint n => toString n
  | .vstr s => "\"" ++ s ++ "\""
  | .varr xs => "[" ++ renderValueList xs ++ "]"

/-- Comma-separated rendering of a list of values. -/
def renderValueList : List Value → String
  | [] => ""
  | [x] => renderValue x
  | x :: y :: rest => renderValue x ++ ", " ++ renderValueList (y :: rest)
end

/-- Rendering of one field binding. -/
def renderBinding : String × Value → String
  | (k, v) => "\"" ++ k ++ "\": " ++ renderValue v

/-- Rendering of a field mapping. -/
def renderData (data : List (String × Value)) : String :=
  "\x7b" ++ String.intercalate ", " (data.map renderBinding) ++ "\x7d"

/-- Rendering of one result entry `{"id": ..., "data": ...}`. -/
def renderDoc (d : Doc) : String :=
  "\x7b\"id\": \"" ++ d.1 ++ "\", \"data\": " ++ renderData d.2 ++ "\x7d"

/-- `json.dumps(result)` over the collected result entries. -/
def jsonDumpDocs (docs : List Doc) : String :=
  "[" ++ String.intercalate ", " (docs.map renderDoc) ++ "]"

/-- The text content of one response item (`types.TextContent`). -/
structure TextContent where
  text : String
  deriving DecidableEq

/-- One declared tool of the catalog (`types.Tool`): its name,
description, and the argument fields its input schema declares, split
into required and optional ones. -/
structure Tool where
  name : String
  description : String
  requiredArgs : List String
  optionalArgs : List String
  deriving DecidableEq

/-- `handle_list_tools`: the declared tool catalog of the server. -/
def handle_list_tools : List Tool :=
  [ { name := "query-collection"
      description := "Query documents from a collection"
      requiredArgs := ["collection"]
      optionalArgs := ["where", "limit", "orderBy"] } ]

/-- The argument bag of a tool call, with the four keys
`handle_call_tool` reads; a `none` field is an absent key. -/
structure Arguments where
  collection : Option String := none
  whereArg : Option (List (List Value)) := none
  limit : Option Int := none
  orderBy : Option (List (String × Value)) := none

/-- Python truthiness of the bag (`not arguments`): true iff some key is
present. -/
def Arguments.nonEmpty (a : Arguments) : Bool :=
  a.collection.isSome || a.whereArg.isSome || a.limit.isSome || a.orderBy.isSome

/-- `db.collection(collection)`: constructing a collection reference from
`arguments.get("collection")`. Modelled from the spec: the store SDK
builds the reference from the name string; handed `None` (an absent
argument) it raises immediately, before any query execution. -/
def dbCollection : Option String → Except PyError QuerySpec
  | some c => .ok (emptyQuery c)
  | none => .error (.attributeError "NoneType object has no attribute split")

/-- Python tuple unpacking `field, op, value = entry`: raises
`ValueError` unless the entry has exactly three elements. -/
def unpackEntry : List Value → Except PyError (Value × Value × Value)
  | [a, b, c] => .ok (a, b, c)
  | l =>
    .error (.valueError
      (if l.length < 3 then
        "not enough values to unpack (expected 3, got " ++ toString l.length ++ ")"
      else "too many values to unpack (expected 3)"))

/-- The `for field, op, value in where_filters` loop: each entry is
unpacked and appended to the query as one `.where` constraint. -/
def applyWhereFilters (q : QuerySpec) : List (List Value) → Except PyError QuerySpec
  | [] => .ok q
  | e :: rest =>
    match unpackEntry e with
    | .error pe => .error pe
    | .ok (f, o, v) =>
      applyWhereFilters { q with filters := q.filters ++ [(f, o, v)] } rest

/-- Python dict indexing `d[k]`: raises `KeyError` when absent. -/
def dictIndex (d : List (String × Value)) (k : String) : Except PyError Value :=
  match d.lookup k with
  | some v => .ok v
  | none => .error (.keyError k)

/-- `query.order_by(order_by["field"], direction=DESCENDING if
order_by["direction"] == "desc" else ASCENDING)`: both keys are indexed
(field first), and only the exact string `"desc"` selects descending. -/
def applyOrderBy (q : QuerySpec) (ob : List (String × Value)) : Except PyError QuerySpec :=
  match dictIndex ob "field" with
  | .error e => .error e
  | .ok f =>
    match dictIndex ob "direction" with
    | .error e => .error e
    | .ok dv => .ok { q with orderSpec := some ⟨f, dv == .vstr "desc"⟩ }

/-- The `if order_by:` step: a truthy (present, non-empty) `orderBy`
dict is applied via `applyOrderBy`, anything else leaves the query
unchanged. -/
def orderStage (args : Arguments) (q : QuerySpec) : Except PyError QuerySpec :=
  match args.orderBy with
  | some ob => if ob.isEmpty then .ok q else applyOrderBy q ob
  | none => .ok q

/-- The `if limit:` step: a truthy (present, non-zero) `limit` is set on
the query; `0` and absence leave the query unlimited. -/
def applyLimit (args : Arguments) (q : QuerySpec) : QuerySpec :=
  match args.limit with
  | some n => if n == 0 then q else { q with limitN := some n }
  | none => q

/-- The `try` block of `handle_call_tool`: stream the query and collect
the result entries; any failure raised here is caught and becomes the
text result `Error querying collection: <message>`. -/
def executeStage (store : Store) (q : QuerySpec) : Except PyError (List TextContent) :=
  match streamQuery store q with
  | .ok docs => .ok [⟨jsonDumpDocs docs⟩]
  | .error e => .ok [⟨"Error querying collection: " ++ e.message⟩]

/-- The limit-and-execute tail of the dispatch: a raised ordering error
keeps propagating; an ordered query gets its limit applied and is then
executed. -/
def dispatchTail (store : Store) (args : Arguments) (r : Except PyError QuerySpec) :
    Except PyError (List TextContent) :=
  match r with
  | .error e => .error e
  | .ok q2 => executeStage store (applyLimit args q2)

/-- `handle_call_tool`: the tool dispatcher. An absent or empty argument
bag raises `ValueError("Missing arguments")`; a `query-collection` call
builds the query (collection reference, where filters, ordering, limit —
all outside any `try`), then executes it inside `try` (`executeStage`);
any other tool name raises `ValueError("Unknown tool: ...")`. -/
def handle_call_tool (store : Store) (name : String) (args? : Option Arguments) :
    Except PyError (List TextContent) :=
  match args? with
  | none => .error (.valueError "Missing arguments")
  | some args =>
    if !args.nonEmpty then .error (.valueError "Missing arguments")
    else if name == "query-collection" then
      match dbCollection args.collection with
      | .error e => .error e
      | .ok q0 =>
        match applyWhereFilters q0 (args.whereArg.getD []) with
        | .error e => .error e
        | .ok q1 => dispatchTail store args (orderStage args q1)
    else .error (.valueError ("Unknown tool: " ++ name))

/-- The complete response the transport sees for one tool call. -/
structure ToolResult where
  isError : Bool
  content : List TextContent
  deriving DecidableEq

/-- Modelled from the spec: the framework boundary around the tool-call
handler (the `@server.call_tool()` wrapper, not part of this repository).
Per the spec's propagation policy, every exception the handler raises is
caught at this boundary and converted into an error result carrying the
exception text, so a tool call never becomes a transport-level fault. -/
def call_tool_boundary (store : Store) (name : String) (args? : Option Arguments) :
    ToolResult :=
  match handle_call_tool store name args? with
  | .ok ts => { isError := false, content := ts }
  | .error e => { isError := true, content := [⟨e.message⟩] }

/-- A parsed URI as the resource reader sees it: its scheme and its
authority (netloc) component. -/
structure ParsedUri where
  scheme : String
  netloc : String

/-- `handle_read_resource`: raises on a non-`firestore` scheme (no
conversion into a text result anywhere in this handler), otherwise
streams the collection named by the URI authority and dumps it. -/
def handle_read_resource (store : Store) (uri : ParsedUri) : Except PyError String :=
  if uri.scheme != "firestore" then
    .error (.valueError ("Unsupported URI scheme: " ++ uri.scheme))
  else
    match streamQuery store (emptyQuery uri.netloc) with
    | .error e => .error e
    | .ok docs => .ok (jsonDumpDocs docs)

/-- Python truthiness of `os.environ.get(v)`: false for an absent
variable and for the empty string. -/
def pyTruthyStr : Option String → Bool
  | none => false
  | some s => !s.isEmpty

/-- The environment keys `FIREBASE_CONFIG` is built from. -/
def FIREBASE_CONFIG (env : String → Option String) : List (String × Option String) :=
  [ ("apiKey", env "FIREBASE_API_KEY")
  , ("authDomain", env "FIREBASE_AUTH_DOMAIN")
  , ("projectId", env "FIREBASE_PROJECT_ID")
  , ("storageBucket", env "FIREBASE_STORAGE_BUCKET")
  , ("messagingSenderId", env "FIREBASE_MESSAGING_SENDER_ID")
  , ("appId", env "FIREBASE_APP_ID")
  , ("measurementId", env "FIREBASE_MEASUREMENT_ID") ]

/-- The variables `main` requires. -/
def required_vars : List String :=
  ["FIREBASE_API_KEY", "FIREBASE_AUTH_DOMAIN", "FIREBASE_PROJECT_ID"]

/-- What `main` does: either it prints the missing-variable message and
returns without starting the server (the coroutine ends and the process
exits), or it runs the stdio server. -/
inductive MainOutcome where
  | printedErrorAndReturned : String → MainOutcome
  | ranServer : MainOutcome
  deriving DecidableEq

/-- `main`: checks the three required environment variables; if any is
absent (or empty), prints the error message and returns — the server is
never started. -/
def main (env : String → Option String) : MainOutcome :=
  let missing := required_vars.filter (fun v => !pyTruthyStr (env v))
  if !missing.isEmpty then
    .printedErrorAndReturned
      ("Error: Missing required environment variables: " ++ String.intercalate ", " missing)
  else .ranServer

/-- The first three elements of a where entry (total on all lists; it
agrees with Python unpacking exactly on three-element entries). -/
def entryTriple (l : List Value) : Value × Value × Value :=
  (l.getD 0 .vnull, l.getD 1 .vnull, l.getD 2 .vnull)

/-- The documents of a collection matching a translated where list: the
reference denotation of "the matching documents" for a query. -/
def matchedDocs (store : Store) (c : String) (ws : List (List Value)) : List Doc :=
  (store.docsOf c).filter (fun d => matchesAll (ws.map entryTriple) d.2)

/-- A small concrete store used to instantiate theorems. -/
def sampleStore : Store where
  docsOf := fun c =>
    if c == "users" then
      [ ("d1", [("age", .vint 30), ("city", .vstr "NYC")])
      , ("d2", [("age", .vint 20), ("city", .vstr "LA")])
      , ("d3", [("age", .vint 25), ("city", .vstr "NYC")]) ]
    else []
  streamFailure := fun _ => none

/-- A concrete store whose `users` collection raises while streaming. -/
def failingStore : Store where
  docsOf := fun _ => []
  streamFailure := fun c => if c == "users" then some "boom" else none

/-- Whether one character list begins with another. -/
def listStartsWith : List Char → List Char → Bool
  | _, [] => true
  | [], _ :: _ => false
  | a :: as, b :: bs => (a == b) && listStartsWith as bs

/-- Whether one character list occurs inside another. -/
def listHasSub : List Char → List Char → Bool
  | [], sub => sub.isEmpty
  | a :: as, sub => listStartsWith (a :: as) sub || listHasSub as sub

/-- Whether `hay` mentions `needle` as a substring (used to state what an
error text does or does not talk about). -/
def mentions (hay needle : String) : Bool :=
  listHasSub hay.data needle.data

/-! ## Order-relation lemmas for the store's sort semantics -/

theorem valueLe_total (a b : Value) : valueLe a b = true ∨ valueLe b a = true := by
  cases a <;> cases b <;>
    simp only [valueLe, Value.rank, decide_eq_true_eq, Bool.or_eq_true,
      Bool.not_eq_true', Bool.not_eq_eq_eq_not] <;>
    first
      | omega
      | exact Int.le_total _ _
      | exact le_total _ _
      | (rename_i x y; rcases x <;> rcases y <;> simp)

theorem valueLe_trans (a b c : Value) (h1 : valueLe a b = true) (h2 : valueLe b c = true) :
    valueLe a c = true := by
  cases a <;> cases b <;> cases c <;>
    simp only [valueLe, Value.rank, decide_eq_true_eq, Bool.or_eq_true,
      Bool.not_eq_true', Bool.not_eq_eq_eq_not] at h1 h2 ⊢ <;>
    first
      | omega
      | exact le_trans h1 h2
      | (rename_i x y z; rcases x <;> rcases y <;> rcases z <;> simp_all)

theorem docLe_total (f : Value) (desc : Bool) (d1 d2 : Doc) :
    docLe f desc d1 d2 ∨ docLe f desc d2 d1 := by
  unfold docLe docLeB
  rcases desc <;> simp only [Bool.false_eq_true, reduceIte] <;> exact valueLe_total _ _

theorem docLe_trans (f : Value) (desc : Bool) (d1 d2 d3 : Doc)
    (h1 : docLe f desc d1 d2) (h2 : docLe f desc d2 d3) : docLe f desc d1 d3 := by
  unfold docLe docLeB at h1 h2 ⊢
  rcases desc <;> simp only [Bool.false_eq_true, reduceIte] at h1 h2 ⊢
  · exact valueLe_trans _ _ _ h1 h2
  · exact valueLe_trans _ _ _ h2 h1

/-! ## Translation lemmas -/

theorem applyWhereFilters_ok (ws : List (List Value)) :
    ∀ q : QuerySpec, (∀ e ∈ ws, e.length = 3) →
    applyWhereFilters q ws = .ok { q with filters := q.filters ++ ws.map entryTriple } := by
  induction ws with
  | nil => intro q _; simp [applyWhereFilters]
  | cons e rest ih =>
    intro q h3
    have he : e.length = 3 := h3 e (List.mem_cons_self e rest)
    match e, he with
    | [a, b, c], _ =>
      rw [applyWhereFilters]
      simp only [unpackEntry]
      rw [ih _ (fun x hx => h3 x (List.mem_cons_of_mem _ hx))]
      simp [entryTriple, List.append_assoc]

theorem matchesAll_perm (fs1 fs2 : List (Value × Value × Value))
    (hp : fs1.Perm fs2) (data : List (String × Value)) :
    matchesAll fs1 data = matchesAll fs2 data := by
  unfold matchesAll
  rw [Bool.eq_iff_iff]
  simp only [List.all_eq_true]
  constructor <;> intro hh x hx
  · exact hh x (hp.mem_iff.mpr hx)
  · exact hh x (hp.mem_iff.mp hx)

theorem runQuery_filters_perm (store : Store) (c : String)
    (fs1 fs2 : List (Value × Value × Value)) (os : Option OrderSpec) (ln : Option Int)
    (hp : fs1.Perm fs2) :
    runQuery store ⟨c, fs1, os, ln⟩ = runQuery store ⟨c, fs2, os, ln⟩ := by
  unfold runQuery
  simp only
  rw [List.filter_congr (fun d _ => matchesAll_perm fs1 fs2 hp d.2)]

theorem executeLimit_filters_perm (store : Store) (args1 args2 : Arguments) (c : String)
    (fs1 fs2 : List (Value × Value × Value)) (os : Option OrderSpec) (ln : Option Int)
    (hl : args1.limit = args2.limit) (hp : fs1.Perm fs2) :
    executeStage store (applyLimit args1 ⟨c, fs1, os, ln⟩)
      = executeStage store (applyLimit args2 ⟨c, fs2, os, ln⟩) := by
  have key : ∀ ln2 : Option Int,
      executeStage store ⟨c, fs1, os, ln2⟩ = executeStage store ⟨c, fs2, os, ln2⟩ := by
    intro ln2
    unfold executeStage streamQuery
    simp only
    cases store.streamFailure c with
    | some m => rfl
    | none => rw [runQuery_filters_perm store c fs1 fs2 os ln2 hp]
  unfold applyLimit
  rw [← hl]
  cases args1.limit with
  | none => exact key ln
  | some n =>
    cases hn : n == 0 with
    | true => simp only [hn, reduceIte]; exact key ln
    | false => simp only [hn, Bool.false_eq_true, reduceIte]; exact key (some n)

theorem post_where_filters_perm (store : Store) (args1 args2 : Arguments) (c : String)
    (fs1 fs2 : List (Value × Value × Value))
    (ho : args1.orderBy = args2.orderBy) (hl : args1.limit = args2.limit)
    (hp : fs1.Perm fs2) :
    dispatchTail store args1 (orderStage args1 ⟨c, fs1, none, none⟩)
      = dispatchTail store args2 (orderStage args2 ⟨c, fs2, none, none⟩) := by
  unfold orderStage dispatchTail
  rw [← ho]
  cases args1.orderBy with
  | none => exact executeLimit_filters_perm store args1 args2 c fs1 fs2 none none hl hp
  | some ob =>
    cases hob : ob.isEmpty with
    | true =>
      simp only [hob, reduceIte]
      exact executeLimit_filters_perm store args1 args2 c fs1 fs2 none none hl hp
    | false =>
      simp only [hob, Bool.false_eq_true, reduceIte]
      unfold applyOrderBy
      cases hf : dictIndex ob "field" with
      | error e => simp only [hf]
      | ok f =>
        cases hd : dictIndex ob "direction" with
        | error e => simp only [hf, hd]
        | ok dv =>
          simp only [hf, hd]
          exact executeLimit_filters_perm store args1 args2 c fs1 fs2
            (some ⟨f, dv == .vstr "desc"⟩) none hl hp

theorem executeStage_ok (store : Store) (q : QuerySpec)
    (hs : store.streamFailure q.collection = none) :
    executeStage store q = .ok [⟨jsonDumpDocs (runQuery store q)⟩] := by
  unfold executeStage streamQuery
  rw [hs]

theorem applyLimit_fields (args : Arguments) (q : QuerySpec) :
    ∃ ln, applyLimit args q = { q with limitN := ln } := by
  unfold applyLimit
  cases args.limit with
  | none => exact ⟨q.limitN, rfl⟩
  | some n =>
    cases hn : n == 0 with
    | true => simp only [hn, reduceIte]; exact ⟨q.limitN, rfl⟩
    | false => simp only [hn, Bool.false_eq_true, reduceIte]; exact ⟨some n, rfl⟩

theorem runQuery_sorted (store : Store) (c : String)
    (fs : List (Value × Value × Value)) (f : Value) (desc : Bool) (ln : Option Int) :
    (runQuery store ⟨c, fs, some ⟨f, desc⟩, ln⟩).Pairwise (docLe f desc) := by
  unfold runQuery
  simp only
  haveI : IsTotal Doc (docLe f desc) := ⟨docLe_total f desc⟩
  haveI : IsTrans Doc (docLe f desc) := ⟨docLe_trans f desc⟩
  have hsorted :=
    List.sorted_insertionSort (docLe f desc)
      ((store.docsOf c).filter (fun d => matchesAll fs d.2))
  cases ln with
  | none => exact hsorted
  | some n => exact hsorted.sublist (List.take_sublist _ _)

theorem runQuery_plain (store : Store) (c : String) (fs : List (Value × Value × Value)) :
    runQuery store ⟨c, fs, none, none⟩
      = (store.docsOf c).filter (fun d => matchesAll fs d.2) := rfl

theorem runQuery_take (store : Store) (c : String)
    (fs : List (Value × Value × Value)) (n : Int) :
    runQuery store ⟨c, fs, none, some n⟩
      = ((store.docsOf c).filter (fun d => matchesAll fs d.2)).take n.toNat := rfl

theorem runQuery_empty (store : Store) (c : String) :
    runQuery store (emptyQuery c) = store.docsOf c := by
  unfold emptyQuery
  rw [runQuery_plain]
  have : ∀ d : Doc, d ∈ store.docsOf c →
      (matchesAll [] d.2) = (fun _ : Doc => true) d := fun d _ => rfl
  rw [List.filter_congr this, List.filter_true]

theorem handle_call_tool_query (store : Store) (args : Arguments) (c : String)
    (hc : args.collection = some c)
    (h3 : ∀ e ∈ args.whereArg.getD [], e.length = 3) :
    handle_call_tool store "query-collection" (some args)
      = dispatchTail store args
          (orderStage args ⟨c, (args.whereArg.getD []).map entryTriple, none, none⟩) := by
  unfold handle_call_tool
  have hne : args.nonEmpty = true := by
    unfold Arguments.nonEmpty
    rw [hc]
    simp
  simp only [hne, Bool.not_true, Bool.false_eq_true, reduceIte, beq_self_eq_true, hc,
    dbCollection]
  rw [applyWhereFilters_ok _ (emptyQuery c) h3]
  simp [emptyQuery]

theorem unpackEntry_error (e : List Value) (h : e.length ≠ 3) :
    ∃ msg, unpackEntry e = .error (.valueError msg) := by
  match e with
  | [a, b, c] => exact absurd rfl h
  | [] => exact ⟨_, rfl⟩
  | [a] => exact ⟨_, rfl⟩
  | [a, b] => exact ⟨_, rfl⟩
  | a :: b :: c :: d :: rest => exact ⟨_, rfl⟩

/-! ## The claims -/

/-- C1: a tool call whose operation name is not in the declared catalog
yields an error result at the call boundary — the error content names the
unknown tool (or, for an empty bag, the missing arguments) — and never a
transport-level fault (the boundary result is total). -/
theorem c1_unknown_tool_yields_error_result (store : Store) (name : String)
    (args? : Option Arguments) (h : name ∉ handle_list_tools.map Tool.name) :
    (call_tool_boundary store name args?).isError = true
    ∧ ((call_tool_boundary store name args?).content = [⟨"Unknown tool: " ++ name⟩]
       ∨ (call_tool_boundary store name args?).content = [⟨"Missing arguments"⟩]) := by
  have hne : name ≠ "query-collection" := by
    simpa [handle_list_tools] using h
  have hb : (name == "query-collection") = false := by
    simp [hne]
  unfold call_tool_boundary handle_call_tool
  cases args? with
  | none => simp [PyError.message]
  | some a =>
    cases ha : a.nonEmpty with
    | false => simp [ha, PyError.message]
    | true => simp [ha, hb, PyError.message]

/-- Witness for C1 at the unknown name `nonsense-op`. -/
theorem c1_unknown_tool_yields_error_result_witness :
    "nonsense-op" ∉ handle_list_tools.map Tool.name
    ∧ ((call_tool_boundary sampleStore "nonsense-op"
          (some { collection := some "users" })).isError = true
      ∧ ((call_tool_boundary sampleStore "nonsense-op"
            (some { collection := some "users" })).content
          = [⟨"Unknown tool: " ++ "nonsense-op"⟩]
        ∨ (call_tool_boundary sampleStore "nonsense-op"
            (some { collection := some "users" })).content
          = [⟨"Missing arguments"⟩])) :=
  ⟨by simp [handle_list_tools],
   c1_unknown_tool_yields_error_result sampleStore "nonsense-op"
     (some { collection := some "users" }) (by simp [handle_list_tools])⟩

/-- C2 counterexample: the declared catalog contains exactly one tool,
`query-collection`; `list-collections`, `get-collection` and
`create-document` are not declared, so the catalog does not contain the
four operations the claim requires. -/
theorem c2_catalog_not_four_tools :
    handle_list_tools.length = 1
    ∧ handle_list_tools.map Tool.name = ["query-collection"]
    ∧ "list-collections" ∉ handle_list_tools.map Tool.name
    ∧ "get-collection" ∉ handle_list_tools.map Tool.name
    ∧ "create-document" ∉ handle_list_tools.map Tool.name := by
  refine ⟨rfl, rfl, ?_, ?_, ?_⟩ <;> simp [handle_list_tools]

/-- C2 (amended): the catalog declares exactly one operation,
`query-collection`, requiring `collection` and optionally accepting
`where`, `limit` and `orderBy`. -/
theorem c2_catalog_single_query_collection :
    handle_list_tools.map Tool.name = ["query-collection"]
    ∧ handle_list_tools.map Tool.requiredArgs = [["collection"]]
    ∧ handle_list_tools.map Tool.optionalArgs = [["where", "limit", "orderBy"]] :=
  ⟨rfl, rfl, rfl⟩

/-- C3 counterexample: a non-empty argument bag that lacks `collection`
is not validated — the handler raises (query construction fails on the
absent name, outside the `try`), and the text surfaced at the boundary
mentions neither "Missing arguments" nor "collection". -/
theorem c3_missing_collection_field_not_validated :
    handle_call_tool sampleStore "query-collection" (some { limit := some 2 })
      = .error (.attributeError "NoneType object has no attribute split")
    ∧ (call_tool_boundary sampleStore "query-collection" (some { limit := some 2 })).content
      = [⟨"NoneType object has no attribute split"⟩]
    ∧ mentions "NoneType object has no attribute split" "Missing arguments" = false
    ∧ mentions "NoneType object has no attribute split" "collection" = false :=
  ⟨rfl, rfl, rfl, rfl⟩

/-- C3 (amended): only an absent or empty argument bag is validated: it
raises `ValueError("Missing arguments")`, surfaced at the boundary as an
error result with exactly that text; a non-empty bag missing `collection`
instead fails during query construction (see the counterexample). -/
theorem c3_empty_bag_missing_arguments (store : Store) (args? : Option Arguments)
    (h : args? = none ∨ ∃ a, args? = some a ∧ a.nonEmpty = false) :
    handle_call_tool store "query-collection" args? = .error (.valueError "Missing arguments")
    ∧ call_tool_boundary store "query-collection" args?
      = { isError := true, content := [⟨"Missing arguments"⟩] } := by
  have hh : handle_call_tool store "query-collection" args?
      = .error (.valueError "Missing arguments") := by
    rcases h with h | ⟨a, ha, hne⟩
    · rw [h]; rfl
    · rw [ha]; unfold handle_call_tool; simp [hne]
  refine ⟨hh, ?_⟩
  unfold call_tool_boundary
  rw [hh]
  rfl

/-- Witness for C3 (amended) at an absent argument bag. -/
theorem c3_empty_bag_missing_arguments_witness :
    handle_call_tool sampleStore "query-collection" none
      = .error (.valueError "Missing arguments")
    ∧ call_tool_boundary sampleStore "query-collection" none
      = { isError := true, content := [⟨"Missing arguments"⟩] } :=
  c3_empty_bag_missing_arguments sampleStore none (Or.inl rfl)

/-- C4 counterexample: a store failure while streaming is surfaced as
`Error querying collection: boom` — not the claimed
`Error executing <operation>: <message>` form, and the text does not
contain the operation name `query-collection`. -/
theorem c4_error_text_lacks_operation_name :
    handle_call_tool failingStore "query-collection" (some { collection := some "users" })
      = .ok [⟨"Error querying collection: boom"⟩]
    ∧ "Error executing query-collection: boom" ≠ "Error querying collection: boom"
    ∧ mentions "Error querying collection: boom" "query-collection" = false :=
  ⟨rfl, by decide, rfl⟩

/-- C4 (amended): a failure raised by the store while streaming the
results is caught at the `try` boundary and converted to the text result
`Error querying collection: <message>` (the operation name is not
included); failures during query construction are raised outside the
`try` and escape the handler. -/
theorem c4_stream_failure_caught_as_text (store : Store) (c msg : String)
    (ws : List (List Value)) (h3 : ∀ e ∈ ws, e.length = 3)
    (hf : store.streamFailure c = some msg) :
    handle_call_tool store "query-collection"
      (some { collection := some c, whereArg := some ws })
      = .ok [⟨"Error querying collection: " ++ msg⟩] := by
  rw [handle_call_tool_query store _ c rfl (by simpa using h3)]
  simp only [orderStage, dispatchTail, applyLimit]
  unfold executeStage streamQuery
  simp [hf, PyError.message]

/-- Witness for C4 (amended) on the failing store. -/
theorem c4_stream_failure_caught_as_text_witness :
    failingStore.streamFailure "users" = some "boom"
    ∧ handle_call_tool failingStore "query-collection"
        (some { collection := some "users", whereArg := some [] })
      = .ok [⟨"Error querying collection: " ++ "boom"⟩] :=
  ⟨rfl, c4_stream_failure_caught_as_text failingStore "users" "boom" []
    (fun e he => absurd he (List.not_mem_nil e)) rfl⟩

/-- C5: each 3-tuple of the where argument becomes exactly one filter
constraint (the translated query holds `entryTriple` of each tuple, in
order), the constraints are combined by logical AND (a document matches
iff every clause holds), and permuting the where list leaves the dispatch
result unchanged. -/
theorem c5_where_tuples_anded_perm_invariant (store : Store) (c : String)
    (ws1 ws2 : List (List Value)) (lim : Option Int) (ob : Option (List (String × Value)))
    (hp : ws1.Perm ws2) (h3 : ∀ e ∈ ws1, e.length = 3) :
    applyWhereFilters (emptyQuery c) ws1
      = .ok { emptyQuery c with filters := ws1.map entryTriple }
    ∧ (∀ d : Doc, matchesAll (ws1.map entryTriple) d.2 = true ↔
        ∀ cl ∈ ws1.map entryTriple, evalClause d.2 cl = true)
    ∧ handle_call_tool store "query-collection"
        (some { collection := some c, whereArg := some ws1, limit := lim, orderBy := ob })
      = handle_call_tool store "query-collection"
        (some { collection := some c, whereArg := some ws2, limit := lim, orderBy := ob }) := by
  have h3b : ∀ e ∈ ws2, e.length = 3 := fun e he => h3 e (hp.mem_iff.mpr he)
  refine ⟨?_, fun d => by unfold matchesAll; exact List.all_eq_true, ?_⟩
  · rw [applyWhereFilters_ok ws1 (emptyQuery c) h3]
    simp [emptyQuery]
  · unfold handle_call_tool
    simp only [Arguments.nonEmpty, Option.isSome_some, Bool.true_or, Bool.or_true,
      Bool.not_true, Bool.false_eq_true, reduceIte, beq_self_eq_true, dbCollection,
      Option.getD_some]
    rw [applyWhereFilters_ok ws1 (emptyQuery c) h3, applyWhereFilters_ok ws2 (emptyQuery c) h3b]
    simp only [emptyQuery, List.nil_append]
    exact post_where_filters_perm store _ _ c _ _ rfl rfl (hp.map entryTriple)

/-- Witness for C5: swapping the two example where tuples leaves the
dispatch result unchanged. -/
theorem c5_where_tuples_anded_perm_invariant_witness :
    handle_call_tool sampleStore "query-collection"
      (some { collection := some "users",
              whereArg := some [[.vstr "age", .vstr ">", .vint 18],
                                [.vstr "city", .vstr "==", .vstr "NYC"]] })
      = handle_call_tool sampleStore "query-collection"
      (some { collection := some "users",
              whereArg := some [[.vstr "city", .vstr "==", .vstr "NYC"],
                                [.vstr "age", .vstr ">", .vint 18]] }) :=
  (c5_where_tuples_anded_perm_invariant sampleStore "users"
    [[Value.vstr "age", Value.vstr ">", Value.vint 18],
     [Value.vstr "city", Value.vstr "==", Value.vstr "NYC"]]
    [[Value.vstr "city", Value.vstr "==", Value.vstr "NYC"],
     [Value.vstr "age", Value.vstr ">", Value.vint 18]]
    none none
    (List.Perm.swap [Value.vstr "city", Value.vstr "==", Value.vstr "NYC"]
      [Value.vstr "age", Value.vstr ">", Value.vint 18] [])
    (by
      rintro e he
      rcases List.mem_cons.mp he with rfl | he2
      · rfl
      · rcases List.mem_cons.mp he2 with rfl | h2
        · rfl
        · exact absurd h2 (List.not_mem_nil e))).2.2

/-- C6 counterexample: an `orderBy` with a `field` but no `direction` key
raises `KeyError` (dict indexing) instead of defaulting to ascending; the
handler returns no result at all for such a call. -/
theorem c6_absent_direction_raises_keyerror :
    handle_call_tool sampleStore "query-collection"
      (some { collection := some "users", orderBy := some [("field", .vstr "age")] })
      = .error (.keyError "direction")
    ∧ ∀ ts : List TextContent,
        handle_call_tool sampleStore "query-collection"
          (some { collection := some "users", orderBy := some [("field", .vstr "age")] })
          ≠ .ok ts := by
  have h : handle_call_tool sampleStore "query-collection"
      (some { collection := some "users", orderBy := some [("field", .vstr "age")] })
      = .error (.keyError "direction") := rfl
  exact ⟨h, fun ts hts => by rw [h] at hts; exact Except.noConfusion hts⟩

/-- C6 (amended): with an `orderBy` dict carrying both `field` and
`direction`, direction value `"desc"` sorts descending and any other
present value ascending: the returned documents are non-increasing in the
order field for `"desc"` and non-decreasing otherwise. (An absent
`direction` key instead raises `KeyError`; see the counterexample.) -/
theorem c6_direction_desc_sorts (store : Store) (c : String) (f dv : Value)
    (ws : List (List Value)) (lim : Option Int)
    (h3 : ∀ e ∈ ws, e.length = 3) (hs : store.streamFailure c = none) :
    ∃ docs : List Doc,
      handle_call_tool store "query-collection"
        (some { collection := some c, whereArg := some ws, limit := lim,
                orderBy := some [("field", f), ("direction", dv)] })
        = .ok [⟨jsonDumpDocs docs⟩]
      ∧ docs.Pairwise (fun d1 d2 =>
          if dv == .vstr "desc"
          then valueLe (getField d2.2 f) (getField d1.2 f) = true
          else valueLe (getField d1.2 f) (getField d2.2 f) = true) := by
  rw [handle_call_tool_query store _ c rfl (by simpa using h3)]
  have horder : orderStage
      { collection := some c, whereArg := some ws, limit := lim,
        orderBy := some [("field", f), ("direction", dv)] }
      ⟨c, ((some ws : Option (List (List Value))).getD []).map entryTriple, none, none⟩
      = .ok ⟨c, ws.map entryTriple, some ⟨f, dv == .vstr "desc"⟩, none⟩ := by
    unfold orderStage applyOrderBy dictIndex
    simp [List.lookup]
  rw [horder]
  simp only [dispatchTail]
  obtain ⟨ln, hln⟩ := applyLimit_fields
    { collection := some c, whereArg := some ws, limit := lim,
      orderBy := some [("field", f), ("direction", dv)] }
    ⟨c, ws.map entryTriple, some ⟨f, dv == .vstr "desc"⟩, none⟩
  rw [hln, executeStage_ok store _ hs]
  refine ⟨_, rfl, ?_⟩
  have hpair := runQuery_sorted store c (ws.map entryTriple) f (dv == .vstr "desc") ln
  refine hpair.imp ?_
  intro d1 d2 h
  unfold docLe docLeB at h
  cases hdv : dv == .vstr "desc" <;> simp only [hdv] at h ⊢ <;> simp_all

/-- Witness for C6 at a concrete descending query on the sample store. -/
theorem c6_direction_desc_sorts_witness :
    sampleStore.streamFailure "users" = none
    ∧ ∃ docs : List Doc,
      handle_call_tool sampleStore "query-collection"
        (some { collection := some "users", whereArg := some [], limit := none,
                orderBy := some [("field", .vstr "age"), ("direction", .vstr "desc")] })
        = .ok [⟨jsonDumpDocs docs⟩]
      ∧ docs.Pairwise (fun d1 d2 =>
          if (.vstr "desc" : Value) == .vstr "desc"
          then valueLe (getField d2.2 (.vstr "age")) (getField d1.2 (.vstr "age")) = true
          else valueLe (getField d1.2 (.vstr "age")) (getField d2.2 (.vstr "age")) = true) :=
  ⟨rfl, c6_direction_desc_sorts sampleStore "users" (.vstr "age") (.vstr "desc") [] none
    (fun e he => absurd he (List.not_mem_nil e)) rfl⟩

/-- C7 counterexample: `limit = 0` is falsy in the `if limit:` guard, so
no limit is applied: the call returns the dump of all three matching
sample documents instead of the claimed `min(0, 3) = 0` documents. -/
theorem c7_limit_zero_not_applied :
    handle_call_tool sampleStore "query-collection"
      (some { collection := some "users", limit := some 0 })
      = .ok [⟨jsonDumpDocs (sampleStore.docsOf "users")⟩]
    ∧ (sampleStore.docsOf "users").length = 3
    ∧ jsonDumpDocs (sampleStore.docsOf "users") ≠ jsonDumpDocs [] :=
  ⟨rfl, rfl, by decide⟩

/-- C7 (amended): a present positive limit caps the result count at
`min(limit, n)` over the `n` matching documents; `limit = 0` is treated
as absent (all matching documents are returned). -/
theorem c7_limit_caps_results (store : Store) (c : String) (ws : List (List Value))
    (k : Int) (h3 : ∀ e ∈ ws, e.length = 3) (hs : store.streamFailure c = none) :
    (0 < k → ∃ docs : List Doc,
      handle_call_tool store "query-collection"
        (some { collection := some c, whereArg := some ws, limit := some k })
        = .ok [⟨jsonDumpDocs docs⟩]
      ∧ docs.length = min k.toNat (matchedDocs store c ws).length)
    ∧ handle_call_tool store "query-collection"
        (some { collection := some c, whereArg := some ws, limit := some 0 })
      = .ok [⟨jsonDumpDocs (matchedDocs store c ws)⟩] := by
  constructor
  · intro hk
    rw [handle_call_tool_query store _ c rfl (by simpa using h3)]
    have hk0 : (k == 0) = false := by simp; omega
    simp only [orderStage, dispatchTail, applyLimit, hk0, Bool.false_eq_true, reduceIte]
    rw [executeStage_ok store _ hs]
    refine ⟨_, rfl, ?_⟩
    rw [runQuery_take, List.length_take]
    rfl
  · rw [handle_call_tool_query store _ c rfl (by simpa using h3)]
    simp only [orderStage, dispatchTail, applyLimit, beq_self_eq_true, reduceIte]
    rw [executeStage_ok store _ hs]
    rw [runQuery_plain]
    rfl

/-- Witness for C7 with `limit = 2` over the three sample documents. -/
theorem c7_limit_caps_results_witness :
    (0 : Int) < 2
    ∧ ((0 < (2 : Int) → ∃ docs : List Doc,
        handle_call_tool sampleStore "query-collection"
          (some { collection := some "users", whereArg := some [], limit := some 2 })
          = .ok [⟨jsonDumpDocs docs⟩]
        ∧ docs.length = min (2 : Int).toNat (matchedDocs sampleStore "users" []).length)
      ∧ handle_call_tool sampleStore "query-collection"
          (some { collection := some "users", whereArg := some [], limit := some 0 })
        = .ok [⟨jsonDumpDocs (matchedDocs sampleStore "users" [])⟩]) :=
  ⟨by decide, c7_limit_caps_results sampleStore "users" [] 2
    (fun e he => absurd he (List.not_mem_nil e)) rfl⟩

/-- C8 counterexample: with every required environment variable absent,
`main` prints the missing-variable message and returns — the server is
never started, so the process does not keep running to serve non-store
functionality. -/
theorem c8_missing_env_server_not_started :
    main (fun _ => none) = .printedErrorAndReturned
      "Error: Missing required environment variables: FIREBASE_API_KEY, FIREBASE_AUTH_DOMAIN, FIREBASE_PROJECT_ID"
    ∧ main (fun _ => none) ≠ .ranServer :=
  ⟨rfl, by decide⟩

/-- C8 (amended): `main` starts the server exactly when every required
environment variable is present and non-empty; otherwise it prints the
error and returns, ending the process, rather than continuing with store
operations disabled. -/
theorem c8_main_runs_iff_env_present (env : String → Option String) :
    main env = .ranServer ↔ required_vars.all (fun v => pyTruthyStr (env v)) = true := by
  cases h1 : pyTruthyStr (env "FIREBASE_API_KEY") <;>
  cases h2 : pyTruthyStr (env "FIREBASE_AUTH_DOMAIN") <;>
  cases h3 : pyTruthyStr (env "FIREBASE_PROJECT_ID") <;>
    simp [main, required_vars, h1, h2, h3]

/-- C9: a resource read with a scheme other than `firestore` raises (the
handler has no conversion to a text result — the error propagates), while
a `firestore` read returns the JSON dump of the collection named by the
URI authority component. -/
theorem c9_read_resource_scheme_gate (store : Store) (uri : ParsedUri) :
    (uri.scheme ≠ "firestore" →
      handle_read_resource store uri
        = .error (.valueError ("Unsupported URI scheme: " ++ uri.scheme)))
    ∧ (uri.scheme = "firestore" → store.streamFailure uri.netloc = none →
      handle_read_resource store uri = .ok (jsonDumpDocs (store.docsOf uri.netloc))) := by
  constructor
  · intro h
    unfold handle_read_resource
    have hb : (uri.scheme != "firestore") = true := by simp [h]
    simp [hb]
  · intro h hs
    unfold handle_read_resource
    have hb : (uri.scheme != "firestore") = false := by simp [h]
    simp only [hb, Bool.false_eq_true, reduceIte]
    have hstream : streamQuery store (emptyQuery uri.netloc)
        = .ok (store.docsOf uri.netloc) := by
      unfold streamQuery
      have hcoll : (emptyQuery uri.netloc).collection = uri.netloc := rfl
      rw [hcoll, hs, runQuery_empty]
    rw [hstream]

/-- Witness for C9 at an `http` URI (raises) and a `firestore` URI
(reads the `users` collection). -/
theorem c9_read_resource_scheme_gate_witness :
    handle_read_resource sampleStore ⟨"http", "users"⟩
      = .error (.valueError ("Unsupported URI scheme: " ++ "http"))
    ∧ handle_read_resource sampleStore ⟨"firestore", "users"⟩
      = .ok (jsonDumpDocs (sampleStore.docsOf "users")) :=
  ⟨(c9_read_resource_scheme_gate sampleStore ⟨"http", "users"⟩).1 (by decide),
   (c9_read_resource_scheme_gate sampleStore ⟨"firestore", "users"⟩).2 rfl rfl⟩

/-- C10: the where/orderBy/limit translation happens outside the `try`
block: a where entry that is not a 3-sequence raises an unpacking
`ValueError` out of the handler, an `orderBy` with `field` but no
`direction` key raises `KeyError` out of the handler, while the execution
phase (`executeStage`, the `try` block) never lets an exception escape —
a store failure there becomes the text result
`Error querying collection: <message>`. -/
theorem c10_translation_unguarded_execution_guarded :
    (∀ (store : Store) (a : Arguments) (c : String) (e : List Value)
        (rest : List (List Value)),
      a.collection = some c → a.whereArg = some (e :: rest) → e.length ≠ 3 →
      ∃ pe : PyError, handle_call_tool store "query-collection" (some a) = .error pe)
    ∧ (∀ (store : Store) (a : Arguments) (c : String) (f : Value),
      a.collection = some c → a.whereArg = none → a.orderBy = some [("field", f)] →
      handle_call_tool store "query-collection" (some a) = .error (.keyError "direction"))
    ∧ (∀ (store : Store) (q : QuerySpec), ∃ ts : List TextContent,
        executeStage store q = .ok ts)
    ∧ (∀ (store : Store) (q : QuerySpec) (msg : String),
        store.streamFailure q.collection = some msg →
        executeStage store q = .ok [⟨"Error querying collection: " ++ msg⟩]) := by
  refine ⟨?_, ?_, ?_, ?_⟩
  · intro store a c e rest hc hw hlen
    obtain ⟨msg, hmsg⟩ := unpackEntry_error e hlen
    unfold handle_call_tool
    have hne : a.nonEmpty = true := by
      unfold Arguments.nonEmpty; rw [hc]; simp
    simp only [hne, Bool.not_true, Bool.false_eq_true, reduceIte, beq_self_eq_true, hc,
      dbCollection, hw, Option.getD_some]
    rw [applyWhereFilters]
    rw [hmsg]
    exact ⟨_, rfl⟩
  · intro store a c f hc hw ho
    rw [handle_call_tool_query store _ c hc (by rw [hw]; simp)]
    unfold orderStage
    rw [ho]
    simp only [List.isEmpty_cons, Bool.false_eq_true, reduceIte]
    unfold applyOrderBy dictIndex
    simp [List.lookup]
    rfl
  · intro store q
    unfold executeStage streamQuery
    cases store.streamFailure q.collection <;> exact ⟨_, rfl⟩
  · intro store q msg hf
    unfold executeStage streamQuery
    rw [hf]
    rfl

/-- Witness for C10: a one-element where entry raises an unpacking error,
a direction-less orderBy raises `KeyError`, and a store failure during
the guarded execution phase becomes a text result. -/
theorem c10_translation_unguarded_execution_guarded_witness :
    handle_call_tool sampleStore "query-collection"
      (some { collection := some "users", whereArg := some [[.vstr "age"]] })
      = .error (.valueError "not enough values to unpack (expected 3, got 1)")
    ∧ handle_call_tool sampleStore "query-collection"
      (some { collection := some "users", orderBy := some [("field", .vstr "age")] })
      = .error (.keyError "direction")
    ∧ executeStage failingStore (emptyQuery "users")
      = .ok [⟨"Error querying collection: " ++ "boom"⟩] :=
  ⟨rfl,
   c10_translation_unguarded_execution_guarded.2.1 sampleStore
     { collection := some "users", orderBy := some [("field", .vstr "age")] }
     "users" (.vstr "age") rfl rfl rfl,
   c10_translation_unguarded_execution_guarded.2.2.2 failingStore
     (emptyQuery "users") "boom" rfl⟩

end FirestoreRead
